import Mathlib

/-!
Shallow embedding of the retrieval-and-citation core of
`src/backend/server.py` (repository multivector-chat), together with
theorems settling the specification claims about it.

Conventions of the embedding:
* Python `int` is modelled by `Int` where negative values are reachable
  (`max_sections`), by `Nat` for page numbers;
* Python list slicing `xs[start:]` is modelled by `pyTailSlice`;
* Python `str.strip()` is modelled by `pyStrip` over the ASCII whitespace
  characters Python strips;
* the Python substring operator `needle in hay` is modelled by
  `strContains`, decidable infix on the character lists;
* the FastAPI handler `chat` is modelled as a pure function of the store
  and message list returning `Except` (an `HTTPException` becomes
  `Except.error`); the handler only reads the global store, so no store
  is returned.
-/

set_option linter.unusedVariables false

namespace Server

/-- Opaque metadata bag carried by extracted elements (spec section 3 calls it
an opaque map); never inspected by the core logic. -/
abbrev Metadata := List (String × String)

/-- Mirrors class `DocumentSection` of server.py (lines 28-33). -/
structure DocumentSection where
  content : String
  page_num : Nat
  section_type : String
  metadata : Metadata
deriving DecidableEq

/-- Mirrors the dict entries held in `DocumentStore.images` / `.tables`
(server.py lines 54-68): a data payload, a page number and metadata. -/
structure VisualItem where
  data : String
  page_num : Nat
  metadata : Metadata
deriving DecidableEq

/-- Mirrors class `DocumentStore` of server.py (lines 35-40). -/
structure DocumentStore where
  sections : List DocumentSection
  images : List VisualItem
  tables : List VisualItem
  current_document : String
deriving DecidableEq

/-- One entry of the list built by `get_context_for_query`
(server.py lines 75-80). -/
structure ContextEntry where
  content : String
  page : Nat
  type : String
  citation : String
deriving DecidableEq

/-- Response / request message model (server.py lines 239-243). -/
structure Message where
  role : String
  content : String
  images : List String
  tables : List String
deriving DecidableEq

/-- Python whitespace characters stripped by `str.strip()`. -/
def isPyWhitespace (c : Char) : Bool :=
  c == ' ' || c == '\t' || c == '\n' || c == '\r' || c == '\x0b' || c == '\x0c'

/-- Python `s.strip()`: drop whitespace from both ends. -/
def pyStrip (s : String) : String :=
  String.mk (((s.toList.dropWhile isPyWhitespace).reverse.dropWhile isPyWhitespace).reverse)

/-- Boolean infix test on character lists: the needle is a prefix of some
suffix of the haystack. -/
def listInfix (needle : List Char) : List Char → Bool
  | [] => needle.isEmpty
  | c :: rest => needle.isPrefixOf (c :: rest) || listInfix needle rest

/-- Python substring operator `sub in hay` on strings. -/
def strContains (hay sub : String) : Bool :=
  listInfix sub.toList hay.toList

/-- Splitting a character list at every occurrence of a separator,
keeping empty segments (the behaviour of Python split with a one-character
separator). -/
def splitChar (sep : Char) : List Char → List (List Char)
  | [] => [[]]
  | c :: rest =>
    let r := splitChar sep rest
    if c == sep then [] :: r
    else
      match r with
      | [] => [[c]]
      | h :: t => (c :: h) :: t

/-- Python split on a one-character separator, e.g. `s.split(",")`:
empty segments are kept and the empty string splits to one empty
segment. -/
def pySplit (sep : Char) (s : String) : List String :=
  (splitChar sep s.toList).map String.mk

/-- Python `s.startswith(pre)` for a plain string argument. -/
def strStartsWith (s pre : String) : Bool :=
  pre.toList.isPrefixOf s.toList

/-- Python `sep.join(parts)`. -/
def pyJoin (sep : String) : List String → String
  | [] => ""
  | [x] => x
  | x :: y :: xs => x ++ sep ++ pyJoin sep (y :: xs)

/-- Python tail slice `l[start:]` for an arbitrary (possibly negative)
integer start index. -/
def pyTailSlice (start : Int) (l : List α) : List α :=
  if start < 0 then l.drop ((l.length : Int) + start).toNat
  else l.drop start.toNat

/-- Body of the loop of `get_context_for_query` (server.py lines 74-80):
the dict appended for one stored section. -/
def mkContextEntry (s : DocumentSection) : ContextEntry :=
  { content := s.content
    page := s.page_num
    type := s.section_type
    citation := "Page " ++ toString s.page_num }

/-- Mirrors `DocumentStore.get_context_for_query` (server.py lines 70-81):
`self.sections[-max_sections:]` mapped to context entries. The Python
default for `max_sections` is 5; callers here pass it explicitly. -/
def DocumentStore.get_context_for_query (store : DocumentStore)
    (query : String) (max_sections : Int) : List ContextEntry :=
  (pyTailSlice (-max_sections) store.sections).map mkContextEntry

/-- Mirrors `DocumentStore.add_section` (server.py lines 51-52). -/
def DocumentStore.add_section (store : DocumentStore) (s : DocumentSection) :
    DocumentStore :=
  { store with sections := store.sections ++ [s] }

/-- Fallback text returned when no context is available
(server.py line 396). -/
def fallbackText : String :=
  "I don\x27t have enough context to answer your question. Please try asking something else or upload a document first."

/-- Detail string of the 400 error raised when no user message is found
(server.py line 385). -/
def noUserMessageError : String := "No user message found in the request"

/-- ASCII lower-casing of one character (the effect of Python lower on
the ASCII range, which covers every intent keyword). -/
def asciiLower (c : Char) : Char :=
  if 65 ≤ c.toNat ∧ c.toNat ≤ 90 then Char.ofNat (c.toNat + 32) else c

/-- Python `query.lower()` (server.py line 414), modelled over the ASCII
range. -/
def pyLower (s : String) : String := String.mk (s.toList.map asciiLower)

/-- Image intent keywords (server.py line 415). -/
def imageTerms : List String :=
  ["image", "picture", "figure", "diagram", "graph", "show me", "visual"]

/-- Table intent keywords (server.py line 416). -/
def tableTerms : List String :=
  ["table", "data", "values", "rows", "columns", "entries"]

/-- Mirrors `include_images` (server.py line 415): some image keyword is a
substring of the lower-cased query. -/
def includeImagesFor (q : String) : Bool :=
  imageTerms.any (fun term => strContains (pyLower q) term)

/-- Mirrors `include_tables` (server.py line 416). -/
def includeTablesFor (q : String) : Bool :=
  tableTerms.any (fun term => strContains (pyLower q) term)

/-- One iteration of the response-building loop (server.py lines 406-411):
sections with non-whitespace content contribute a cited part and their
page number; others are skipped. -/
def bodyStep (doc : String) (acc : List String × List Nat) (s : ContextEntry) :
    List String × List Nat :=
  if pyStrip s.content != "" then
    (acc.1 ++ [s.content ++ " [Source: " ++ doc ++ ", Page " ++ toString s.page ++ "]"],
     acc.2 ++ [s.page])
  else acc

/-- The response-parts list and relevant-pages set built by the loop of
server.py lines 402-411 (the set is modelled by a list used only through
membership). -/
def buildBody (doc : String) (context : List ContextEntry) :
    List String × List Nat :=
  context.foldl (bodyStep doc) ([], [])

/-- Mirrors the body of the `chat` handler after the user message has been
extracted (server.py lines 390-445). -/
def chatWithQuery (store : DocumentStore) (user_message : String) : Message :=
  let context := store.get_context_for_query user_message 5
  if context.isEmpty then
    { role := "assistant", content := fallbackText, images := [], tables := [] }
  else
    let built := buildBody store.current_document context
    let relevant_pages := built.2
    let include_images := includeImagesFor user_message
    let include_tables := includeTablesFor user_message
    let relevant_images :=
      if include_images then
        (store.images.filter (fun img => relevant_pages.contains img.page_num)).map
          (fun img => img.data)
      else []
    let relevant_tables :=
      if include_tables then
        (store.tables.filter (fun t => relevant_pages.contains t.page_num)).map
          (fun t => t.data)
      else []
    { role := "assistant"
      content := pyJoin "\n\n" built.1
      images := relevant_images
      tables := relevant_tables }

/-- Mirrors the scan of server.py lines 377-381: the most recent message
whose role is "user", if any. -/
def findUserMessage (msgs : List Message) : Option String :=
  (msgs.reverse.find? (fun m => m.role == "user")).map (fun m => m.content)

/-- Mirrors the `chat` handler (server.py lines 371-445). The Python test
`if not user_message` treats both an absent user message and an empty
user-message content as missing, raising the same 400 error. -/
def chat (store : DocumentStore) (msgs : List Message) : Except String Message :=
  match findUserMessage msgs with
  | none => Except.error noUserMessageError
  | some q =>
    if q = "" then Except.error noUserMessageError
    else Except.ok (chatWithQuery store q)

/-- Mirrors the text/title branch of the extraction loop (server.py lines
219-230): a section is appended unless some table already stored for the
same page contains the element text as a substring of its data. -/
def processTextElement (store : DocumentStore) (isTitle : Bool)
    (txt : String) (page : Nat) (md : Metadata) : DocumentStore :=
  if store.tables.any (fun table =>
      table.page_num == page && strContains table.data txt) then
    store
  else
    store.add_section
      { content := txt
        page_num := page
        section_type := if isTitle then "title" else "text"
        metadata := md }

/-- Outcome of processing one image element payload
(server.py lines 199-217). -/
inductive ImageOutcome where
  /-- The cleaned payload is stored via `add_image`. -/
  | added (data : String)
  /-- Unrecognized format: warning logged, element skipped (`continue`). -/
  | skippedUnrecognized
  /-- No payload (or falsy payload): warning logged, nothing stored. -/
  | skippedNoData
  /-- An uncaught exception escapes the loop: Python raises `IndexError`
  on the comma split indexed at 1 when no comma is present, which the outer
  handler turns into a 500 aborting the whole extraction. -/
  | extractionError
deriving DecidableEq

/-- Mirrors the payload clean-up of the image branch (server.py lines
199-217), given the discovered payload (`none` when no source yielded
data; Python also treats an empty string as no data via `if image_data:`). -/
def processImagePayload : Option String → ImageOutcome
  | none => ImageOutcome.skippedNoData
  | some s =>
    if s = "" then ImageOutcome.skippedNoData
    else if strStartsWith s "data:image" then
      match (pySplit ',' s).get? 1 with
      | some part => ImageOutcome.added part
      | none => ImageOutcome.extractionError
    else if strStartsWith s "iVBOR" || strStartsWith s "/9j/" then
      ImageOutcome.added s
    else ImageOutcome.skippedUnrecognized

/-- One iteration of the row-grouping loop of the table fallback
(server.py lines 132-137): non-empty stripped lines accumulate into the
current row, flushed every 3 cells. -/
def rowStep (acc : List (List String) × List String) (line : String) :
    List (List String) × List String :=
  if pyStrip line != "" then
    let current_row := acc.2 ++ [pyStrip line]
    if 3 ≤ current_row.length then (acc.1 ++ [current_row], [])
    else (acc.1, current_row)
  else acc

/-- Mirrors the row construction of the table fallback (server.py lines
127-140): strip the raw text, split on newlines, group every 3
consecutive non-empty stripped lines into a row, append the remainder. -/
def buildRows (table_text : String) : List (List String) :=
  let lines := pySplit '\n' (pyStrip table_text)
  let acc := lines.foldl rowStep ([], [])
  if acc.2 != [] then acc.1 ++ [acc.2] else acc.1

/-- HTML fragment for one row (server.py lines 145-150): header cells for
row index 0, data cells afterwards. -/
def rowHtml (i : Nat) (row : List String) : List String :=
  let tag := if i == 0 then "th" else "td"
  ["<tr>"] ++ row.map (fun cell => "<" ++ tag ++ ">" ++ cell ++ "</" ++ tag ++ ">")
    ++ ["</tr>"]

/-- Mirrors the HTML synthesis of the table fallback (server.py lines
127-152): rows rendered between table tags, joined by newlines. -/
def synthesizeTableHtml (table_text : String) : String :=
  let rows := buildRows table_text
  let table_html := ["<table border=\x271\x27>"]
    ++ (rows.enum.map (fun p => rowHtml p.1 p.2)).flatten
    ++ ["</table>"]
  pyJoin "\n" table_html

/-- Sample fixtures used by witness and counterexample theorems. -/
def sampleSection : DocumentSection :=
  { content := "Intro text", page_num := 1, section_type := "text", metadata := [] }

/-- Sample fixture: a second stored section. -/
def sampleSection2 : DocumentSection :=
  { content := "Results table data", page_num := 2, section_type := "text", metadata := [] }

/-- Sample fixture: a whitespace-only section. -/
def blankSection : DocumentSection :=
  { content := "   ", page_num := 3, section_type := "text", metadata := [] }

/-- Sample fixture: an image stored for page 2. -/
def sampleImage : VisualItem :=
  { data := "iVBORpayload", page_num := 2, metadata := [] }

/-- Sample fixture: a table stored for page 2. -/
def sampleTable : VisualItem :=
  { data := "<table>A B C</table>", page_num := 2, metadata := [] }

/-- Sample fixture: a store with two sections, one image and one table. -/
def sampleStore : DocumentStore :=
  { sections := [sampleSection, sampleSection2]
    images := [sampleImage]
    tables := [sampleTable]
    current_document := "doc.pdf" }

/-- Sample fixture: an empty store. -/
def emptyStore : DocumentStore :=
  { sections := [], images := [], tables := [], current_document := "" }

/-- Sample fixture: a store whose only section is whitespace. -/
def blankStore : DocumentStore :=
  { sections := [blankSection]
    images := [sampleImage]
    tables := [sampleTable]
    current_document := "doc.pdf" }

/-! Helper lemmas shared by the claim theorems. -/

/-- The Boolean infix test agrees with the infix relation on lists. -/
theorem listInfix_iff (n : List Char) (h : List Char) :
    listInfix n h = true ↔ n <:+: h := by
  induction h with
  | nil => simp [listInfix]
  | cons c t ih => simp [listInfix, ih, List.infix_cons_iff]

/-- The embedded Python substring operator agrees with the infix relation
on the character lists of the two strings. -/
theorem strContains_iff (hay sub : String) :
    strContains hay sub = true ↔ sub.toList <:+: hay.toList :=
  listInfix_iff sub.toList hay.toList

/-- With a positive bound, the Python slice `sections[-k:]` keeps the last
`min k len` sections, i.e. drops `len - k` from the front. -/
theorem getContext_pos (store : DocumentStore) (q : String) (k : Int) (hk : 0 < k) :
    store.get_context_for_query q k
      = (store.sections.drop (store.sections.length - k.toNat)).map mkContextEntry := by
  unfold DocumentStore.get_context_for_query pyTailSlice
  rw [if_pos (by omega : -k < (0 : Int))]
  have h : ((store.sections.length : Int) + -k).toNat
      = store.sections.length - k.toNat := by omega
  rw [h]

/-- With a non-positive bound `k`, the Python slice `sections[-k:]` drops the
first `natAbs k` sections (all of them kept when `k = 0`). -/
theorem getContext_nonpos (store : DocumentStore) (q : String) (k : Int) (hk : k ≤ 0) :
    store.get_context_for_query q k
      = (store.sections.drop k.natAbs).map mkContextEntry := by
  unfold DocumentStore.get_context_for_query pyTailSlice
  rw [if_neg (by omega : ¬ -k < (0 : Int))]
  have h : (-k).toNat = k.natAbs := by omega
  rw [h]

/-- A positive bound over a non-empty section list yields a non-empty
context. -/
theorem getContext_ne_nil (store : DocumentStore) (q : String) (k : Int)
    (hk : 0 < k) (hne : store.sections ≠ []) :
    store.get_context_for_query q k ≠ [] := by
  rw [getContext_pos store q k hk]
  intro h
  rw [List.map_eq_nil_iff] at h
  have h2 := congrArg List.length h
  rw [List.length_drop] at h2
  simp only [List.length_nil] at h2
  have h3 : store.sections.length ≠ 0 := by
    intro h0
    exact hne (List.eq_nil_of_length_eq_zero h0)
  omega

/-- A non-empty list is not `isEmpty`. -/
theorem isEmpty_false_of_ne_nil {α : Type} {l : List α} (h : l ≠ []) :
    l.isEmpty = false := by
  cases l with
  | nil => exact absurd rfl h
  | cons a t => rfl

/-- Unrolling the response-building fold: it appends, to any accumulator,
the formatted parts and pages of exactly the non-whitespace entries. -/
theorem foldl_bodyStep (doc : String) (l : List ContextEntry)
    (acc : List String × List Nat) :
    l.foldl (bodyStep doc) acc
      = (acc.1 ++ (l.filter (fun s => pyStrip s.content != "")).map
            (fun s => s.content ++ " [Source: " ++ doc ++ ", Page "
              ++ toString s.page ++ "]"),
         acc.2 ++ (l.filter (fun s => pyStrip s.content != "")).map
            (fun s => s.page)) := by
  induction l generalizing acc with
  | nil => simp
  | cons s t ih =>
    rw [List.foldl_cons, ih]
    by_cases h : pyStrip s.content != ""
    · simp [bodyStep, h, List.filter_cons]
    · simp [bodyStep, h, List.filter_cons]

/-- The loop of server.py lines 402-411 computes the filtered formatted
parts and the filtered page list. -/
theorem buildBody_eq (doc : String) (l : List ContextEntry) :
    buildBody doc l
      = ((l.filter (fun s => pyStrip s.content != "")).map
            (fun s => s.content ++ " [Source: " ++ doc ++ ", Page "
              ++ toString s.page ++ "]"),
         (l.filter (fun s => pyStrip s.content != "")).map (fun s => s.page)) := by
  rw [buildBody, foldl_bodyStep]
  simp

/-- Appending a user-role message at the end makes it the message found by
the backwards scan. -/
theorem findUserMessage_append_user (msgs : List Message) (q : String) :
    findUserMessage
        (msgs ++ [{ role := "user", content := q, images := [], tables := [] }])
      = some q := by
  simp [findUserMessage]

/-! Claim theorems. -/

/-- C1: for every store with a non-empty section sequence and every positive
integer bound `k`, `get_context_for_query` returns exactly
`min k (number of sections)` entries, namely the last `k` sections in
their original insertion order, and each returned entry carries the
section content, page number and section type together with a citation
equal to "Page " followed by the page number. -/
theorem C1_get_context_last_k (store : DocumentStore) (q : String) (k : Int)
    (hk : 0 < k) (hne : store.sections ≠ []) :
    (store.get_context_for_query q k).length = min k.toNat store.sections.length
    ∧ store.get_context_for_query q k ≠ []
    ∧ store.get_context_for_query q k
        = (store.sections.drop (store.sections.length - k.toNat)).map mkContextEntry
    ∧ ∀ e ∈ store.get_context_for_query q k, ∃ s ∈ store.sections,
        e.content = s.content ∧ e.page = s.page_num ∧ e.type = s.section_type
        ∧ e.citation = "Page " ++ toString s.page_num := by
  have heq := getContext_pos store q k hk
  refine ⟨?_, getContext_ne_nil store q k hk hne, heq, ?_⟩
  · rw [heq]
    rw [List.length_map, List.length_drop]
    omega
  · intro e he
    rw [heq] at he
    obtain ⟨s, hs, hes⟩ := List.mem_map.mp he
    refine ⟨s, List.drop_subset _ _ hs, ?_, ?_, ?_, ?_⟩ <;>
      rw [← hes] <;> rfl

/-- C1 witness: the theorem instantiated at a concrete two-section store
with bound 2. -/
theorem C1_witness :
    (0 : Int) < 2 ∧ sampleStore.sections ≠ []
    ∧ ((sampleStore.get_context_for_query "q" 2).length
          = min (Int.toNat 2) sampleStore.sections.length
        ∧ sampleStore.get_context_for_query "q" 2 ≠ []
        ∧ sampleStore.get_context_for_query "q" 2
            = (sampleStore.sections.drop
                (sampleStore.sections.length - Int.toNat 2)).map mkContextEntry
        ∧ ∀ e ∈ sampleStore.get_context_for_query "q" 2, ∃ s ∈ sampleStore.sections,
            e.content = s.content ∧ e.page = s.page_num ∧ e.type = s.section_type
            ∧ e.citation = "Page " ++ toString s.page_num) :=
  ⟨by decide, by decide, C1_get_context_last_k sampleStore "q" 2 (by decide) (by decide)⟩

/-- C8 counterexample: with `max_sections = 0` (a non-positive integer) on a
store holding two sections, `get_context_for_query` does not return the
empty list claimed: Python `sections[-0:]` is `sections[0:]`, the whole
list. -/
theorem C8_counterexample :
    (0 : Int) ≤ 0 ∧ sampleStore.get_context_for_query "q" 0 ≠ [] := by decide

/-- C8 (amended): for every store and non-positive integer `k`,
`get_context_for_query` does not error; it returns the sections from
index `natAbs k` onward, formatted as usual — the entire section list
when `k = 0`, and all but the first `natAbs k` sections when `k < 0`. -/
theorem C8_nonpositive_slice (store : DocumentStore) (q : String) (k : Int)
    (hk : k ≤ 0) :
    store.get_context_for_query q k
      = (store.sections.drop k.natAbs).map mkContextEntry :=
  getContext_nonpos store q k hk

/-- C8 witness: the amended theorem instantiated at `k = -1`. -/
theorem C8_witness :
    (-1 : Int) ≤ 0
    ∧ sampleStore.get_context_for_query "q" (-1)
        = (sampleStore.sections.drop (Int.natAbs (-1))).map mkContextEntry :=
  ⟨by decide, C8_nonpositive_slice sampleStore "q" (-1) (by decide)⟩

/-- C2: over a non-empty selected context, every section whose stripped
content is non-empty contributes "content [Source: document, Page n]" to
the answer body, the bodies are joined by a blank line in original order,
and its page is recorded in `relevant_pages`; whitespace-only sections
contribute neither (the filter drops exactly those, so they appear in
neither the body nor the page list). -/
theorem C2_answer_body (store : DocumentStore) (q : String)
    (hne : store.get_context_for_query q 5 ≠ []) :
    (chatWithQuery store q).role = "assistant"
    ∧ (chatWithQuery store q).content
        = pyJoin "\n\n"
            (((store.get_context_for_query q 5).filter
                (fun s => pyStrip s.content != "")).map
              (fun s => s.content ++ " [Source: " ++ store.current_document
                  ++ ", Page " ++ toString s.page ++ "]"))
    ∧ (buildBody store.current_document (store.get_context_for_query q 5)).2
        = ((store.get_context_for_query q 5).filter
            (fun s => pyStrip s.content != "")).map (fun s => s.page) := by
  have hE := isEmpty_false_of_ne_nil hne
  have hb := buildBody_eq store.current_document (store.get_context_for_query q 5)
  refine ⟨?_, ?_, ?_⟩
  · simp [chatWithQuery, hE]
  · simp [chatWithQuery, hE, hb]
  · rw [hb]

/-- C2 witness: the theorem instantiated at the concrete two-section
store. -/
theorem C2_witness :
    sampleStore.get_context_for_query "q" 5 ≠ []
    ∧ ((chatWithQuery sampleStore "q").role = "assistant"
        ∧ (chatWithQuery sampleStore "q").content
            = pyJoin "\n\n"
                (((sampleStore.get_context_for_query "q" 5).filter
                    (fun s => pyStrip s.content != "")).map
                  (fun s => s.content ++ " [Source: " ++ sampleStore.current_document
                      ++ ", Page " ++ toString s.page ++ "]"))
        ∧ (buildBody sampleStore.current_document
              (sampleStore.get_context_for_query "q" 5)).2
            = ((sampleStore.get_context_for_query "q" 5).filter
                (fun s => pyStrip s.content != "")).map (fun s => s.page)) :=
  ⟨by decide, C2_answer_body sampleStore "q" (by decide)⟩

/-- C3: a query with no image keyword as a substring of its lower-casing
yields an empty images list regardless of store contents, likewise for
table keywords and the tables list; and when a flag is set on the
non-fallback path, the media list holds exactly the stored items of that
kind whose page number is in `relevant_pages`, in stored order. -/
theorem C3_media_gating (store : DocumentStore) (q : String) :
    ((∀ t ∈ imageTerms, ¬ t.toList <:+: (pyLower q).toList) →
        includeImagesFor q = false)
    ∧ ((∀ t ∈ tableTerms, ¬ t.toList <:+: (pyLower q).toList) →
        includeTablesFor q = false)
    ∧ (includeImagesFor q = false → (chatWithQuery store q).images = [])
    ∧ (includeTablesFor q = false → (chatWithQuery store q).tables = [])
    ∧ (store.get_context_for_query q 5 ≠ [] → includeImagesFor q = true →
        (chatWithQuery store q).images
          = (store.images.filter (fun img =>
              (buildBody store.current_document
                (store.get_context_for_query q 5)).2.contains img.page_num)).map
              (fun img => img.data))
    ∧ (store.get_context_for_query q 5 ≠ [] → includeTablesFor q = true →
        (chatWithQuery store q).tables
          = (store.tables.filter (fun t =>
              (buildBody store.current_document
                (store.get_context_for_query q 5)).2.contains t.page_num)).map
              (fun t => t.data)) := by
  refine ⟨?_, ?_, ?_, ?_, ?_, ?_⟩
  · intro h
    rw [Bool.eq_false_iff]
    intro hany
    rw [includeImagesFor, List.any_eq_true] at hany
    obtain ⟨t, ht, hc⟩ := hany
    exact h t ht ((strContains_iff _ _).mp hc)
  · intro h
    rw [Bool.eq_false_iff]
    intro hany
    rw [includeTablesFor, List.any_eq_true] at hany
    obtain ⟨t, ht, hc⟩ := hany
    exact h t ht ((strContains_iff _ _).mp hc)
  · intro h
    by_cases hE : (store.get_context_for_query q 5).isEmpty = true
    · simp [chatWithQuery, hE]
    · simp [chatWithQuery, Bool.eq_false_iff.mpr hE, h]
  · intro h
    by_cases hE : (store.get_context_for_query q 5).isEmpty = true
    · simp [chatWithQuery, hE]
    · simp [chatWithQuery, Bool.eq_false_iff.mpr hE, h]
  · intro hne hinc
    simp [chatWithQuery, isEmpty_false_of_ne_nil hne, hinc]
  · intro hne hinc
    simp [chatWithQuery, isEmpty_false_of_ne_nil hne, hinc]

/-- C3 witness: keywordless query "hello" yields empty media lists; the
query "show me the table" triggers both flags and yields exactly the
page-filtered media of the concrete store. -/
theorem C3_witness :
    includeImagesFor "hello" = false
    ∧ includeTablesFor "hello" = false
    ∧ (chatWithQuery sampleStore "hello").images = []
    ∧ (chatWithQuery sampleStore "hello").tables = []
    ∧ (chatWithQuery sampleStore "show me the table").images
        = (sampleStore.images.filter (fun img =>
            (buildBody sampleStore.current_document
              (sampleStore.get_context_for_query "show me the table" 5)).2.contains
              img.page_num)).map (fun img => img.data)
    ∧ (chatWithQuery sampleStore "show me the table").tables
        = (sampleStore.tables.filter (fun t =>
            (buildBody sampleStore.current_document
              (sampleStore.get_context_for_query "show me the table" 5)).2.contains
              t.page_num)).map (fun t => t.data) :=
  ⟨(C3_media_gating sampleStore "hello").1
      (by simp only [← listInfix_iff]; decide),
   (C3_media_gating sampleStore "hello").2.1
      (by simp only [← listInfix_iff]; decide),
   (C3_media_gating sampleStore "hello").2.2.1 (by decide),
   (C3_media_gating sampleStore "hello").2.2.2.1 (by decide),
   (C3_media_gating sampleStore "show me the table").2.2.2.2.1 (by decide) (by decide),
   (C3_media_gating sampleStore "show me the table").2.2.2.2.2 (by decide) (by decide)⟩

/-- C4: with zero stored sections the composed response is exactly the
fixed fallback message with role assistant and empty media lists, and for
any message history ending in a non-empty user message the chat handler
returns it as a normal (non-error) outcome. -/
theorem C4_empty_store_fallback (store : DocumentStore) (q : String)
    (msgs : List Message) (h : store.sections = []) (hq : q ≠ "") :
    chatWithQuery store q
      = { role := "assistant", content := fallbackText, images := [], tables := [] }
    ∧ chat store
        (msgs ++ [{ role := "user", content := q, images := [], tables := [] }])
      = Except.ok
          { role := "assistant", content := fallbackText, images := [], tables := [] } := by
  have hctx : store.get_context_for_query q 5 = [] := by
    rw [getContext_pos store q 5 (by norm_num), h]
    rfl
  have h1 : chatWithQuery store q
      = { role := "assistant", content := fallbackText, images := [], tables := [] } := by
    simp [chatWithQuery, hctx]
  refine ⟨h1, ?_⟩
  rw [chat, findUserMessage_append_user]
  simp [hq, h1]

/-- C4 witness: the theorem instantiated at the empty store, query "hi"
and an empty preceding history. -/
theorem C4_witness :
    emptyStore.sections = [] ∧ "hi" ≠ ""
    ∧ (chatWithQuery emptyStore "hi"
        = { role := "assistant", content := fallbackText, images := [], tables := [] }
      ∧ chat emptyStore
          ([] ++ [{ role := "user", content := "hi", images := [], tables := [] }])
        = Except.ok
            { role := "assistant", content := fallbackText, images := [], tables := [] }) :=
  ⟨by decide, by decide, C4_empty_store_fallback emptyStore "hi" [] (by decide) (by decide)⟩

/-- C5: with no structured HTML metadata, the table fallback groups every
3 consecutive non-empty lines of the raw text into one row and renders
the first row as header cells and later rows as data cells; raw text
"A\nB\nC\nD\nE\nF" yields a 2-row, 3-column table with row 1 as header
cells and row 2 as data cells. A second input with a blank line and a
leftover cell exhibits the grouping rule itself: blank lines are skipped
and a trailing partial group still forms a row. -/
theorem C5_table_fallback_html :
    buildRows "A\nB\nC\nD\nE\nF" = [["A", "B", "C"], ["D", "E", "F"]]
    ∧ synthesizeTableHtml "A\nB\nC\nD\nE\nF"
        = "<table border=\x271\x27>\n<tr>\n<th>A</th>\n<th>B</th>\n<th>C</th>\n</tr>\n<tr>\n<td>D</td>\n<td>E</td>\n<td>F</td>\n</tr>\n</table>"
    ∧ buildRows "A\n\nB\nC\nD\nE\nF\nG" = [["A", "B", "C"], ["D", "E", "F"], ["G"]] := by
  refine ⟨by decide, ?_, by decide⟩
  decide

/-- C6 counterexample: the message list holding exactly one user-role
message whose content is empty is rejected with the "no user message"
client error, although a message with role "user" exists — Python
`if not user_message` conflates empty content with absence. -/
theorem C6_counterexample :
    findUserMessage [{ role := "user", content := "", images := [], tables := [] }]
      = some ""
    ∧ chat emptyStore [{ role := "user", content := "", images := [], tables := [] }]
      = Except.error noUserMessageError :=
  ⟨rfl, rfl⟩

/-- C6 (amended): the query used is the content of the most recent
user-role message; the request is rejected as a client error iff either
no user-role message exists or the most recent user-role message has
empty content; the rejection is identical for every store (the store is
neither consulted nor mutated before the check). -/
theorem C6_user_message_scan (store : DocumentStore) (msgs : List Message) :
    (findUserMessage msgs = none → chat store msgs = Except.error noUserMessageError)
    ∧ (findUserMessage msgs = some "" →
        chat store msgs = Except.error noUserMessageError)
    ∧ (∀ q, findUserMessage msgs = some q → q ≠ "" →
        chat store msgs = Except.ok (chatWithQuery store q))
    ∧ ((∃ e, chat store msgs = Except.error e)
        ↔ findUserMessage msgs = none ∨ findUserMessage msgs = some "") := by
  refine ⟨?_, ?_, ?_, ?_⟩
  · intro h
    simp [chat, h]
  · intro h
    simp [chat, h]
  · intro q h hq
    simp [chat, h, hq]
  · constructor
    · rintro ⟨e, he⟩
      cases hf : findUserMessage msgs with
      | none => exact Or.inl rfl
      | some q =>
        by_cases hq : q = ""
        · exact Or.inr (by rw [hq])
        · exfalso
          have h3 : chat store msgs = Except.ok (chatWithQuery store q) := by
            simp [chat, hf, hq]
          rw [h3] at he
          exact Except.noConfusion he
    · rintro (h | h)
      · exact ⟨noUserMessageError, by simp [chat, h]⟩
      · exact ⟨noUserMessageError, by simp [chat, h]⟩

/-- C6 witness: the amended theorem applied to an empty history (rejected)
and to a history whose last message is a non-empty user message
(accepted and answered from that content). -/
theorem C6_witness :
    chat sampleStore ([] : List Message) = Except.error noUserMessageError
    ∧ chat sampleStore [{ role := "user", content := "hi", images := [], tables := [] }]
        = Except.ok (chatWithQuery sampleStore "hi") :=
  ⟨(C6_user_message_scan sampleStore []).1 (by decide),
   (C6_user_message_scan sampleStore
      [{ role := "user", content := "hi", images := [], tables := [] }]).2.2.1
     "hi" (by decide) (by decide)⟩

/-- C7 counterexample: the code does not strip a data:image payload at the
first comma — it takes the field between the first and second comma
(Python `split` at every comma, index 1), so "data:image,a,b" stores "a"
rather than "a,b"; and a data:image payload with no comma at all raises
(IndexError) and aborts the extraction instead of being skipped. -/
theorem C7_counterexample :
    (strStartsWith "data:image,a,b" "data:image" = true
      ∧ processImagePayload (some "data:image,a,b") = ImageOutcome.added "a"
      ∧ processImagePayload (some "data:image,a,b") ≠ ImageOutcome.added "a,b")
    ∧ processImagePayload (some "data:image") = ImageOutcome.extractionError := by
  decide

/-- C7 (amended): a payload beginning with "data:image" that contains at
least one comma has the second comma-separated field stored (equal to
everything after the first comma exactly when that remainder holds no
further comma); such a payload with no comma raises an error that aborts
the extraction; a non-empty payload with no known magic prefix is
discarded with a warning, and an absent payload is logged and skipped —
only in those discard/skip cases does the extraction always continue. -/
theorem C7_image_payload (s : String) :
    (strStartsWith s "data:image" = true → 2 ≤ (pySplit ',' s).length →
      processImagePayload (some s) = ImageOutcome.added ((pySplit ',' s).getD 1 ""))
    ∧ (strStartsWith s "data:image" = true → (pySplit ',' s).length < 2 →
      processImagePayload (some s) = ImageOutcome.extractionError)
    ∧ (s ≠ "" → strStartsWith s "data:image" = false → strStartsWith s "iVBOR" = false →
        strStartsWith s "/9j/" = false →
      processImagePayload (some s) = ImageOutcome.skippedUnrecognized
        ∧ processImagePayload (some s) ≠ ImageOutcome.extractionError)
    ∧ processImagePayload none = ImageOutcome.skippedNoData := by
  have hne_of_sw : strStartsWith s "data:image" = true → s ≠ "" := by
    intro hsw heq
    rw [heq] at hsw
    exact absurd hsw (by decide)
  have hget : 2 ≤ (pySplit ',' s).length →
      (pySplit ',' s).get? 1 = some ((pySplit ',' s).getD 1 "") := by
    intro h2
    cases hl : pySplit ',' s with
    | nil => rw [hl] at h2; simp at h2
    | cons a t =>
      cases t with
      | nil => rw [hl] at h2; simp at h2
      | cons b t2 => simp [List.getD]
  have hgetn : (pySplit ',' s).length < 2 → (pySplit ',' s).get? 1 = none := by
    intro h2
    cases hl : pySplit ',' s with
    | nil => rfl
    | cons a t =>
      cases t with
      | nil => rfl
      | cons b t2 =>
        rw [hl] at h2
        exact absurd h2 (by simp)
  refine ⟨?_, ?_, ?_, rfl⟩
  · intro hsw h2
    simp only [processImagePayload]
    rw [if_neg (hne_of_sw hsw), if_pos hsw, hget h2]
  · intro hsw h2
    simp only [processImagePayload]
    rw [if_neg (hne_of_sw hsw), if_pos hsw, hgetn h2]
  · intro hne hsw hiv hjp
    constructor
    · simp only [processImagePayload]
      rw [if_neg hne, if_neg (by rw [hsw]; exact Bool.false_ne_true),
        if_neg (by rw [hiv, hjp]; exact Bool.false_ne_true)]
    · simp only [processImagePayload]
      rw [if_neg hne, if_neg (by rw [hsw]; exact Bool.false_ne_true),
        if_neg (by rw [hiv, hjp]; exact Bool.false_ne_true)]
      exact fun h => ImageOutcome.noConfusion h

/-- C7 witness: the amended theorem applied to a well-formed data URI
payload (stored as its base64 field) and to an unrecognized payload
(skipped, not aborting). -/
theorem C7_witness :
    (strStartsWith "data:image/png;base64,iVBORxyz" "data:image" = true
      ∧ 2 ≤ (pySplit ',' "data:image/png;base64,iVBORxyz").length
      ∧ processImagePayload (some "data:image/png;base64,iVBORxyz")
          = ImageOutcome.added
              ((pySplit ',' "data:image/png;base64,iVBORxyz").getD 1 ""))
    ∧ ("zzz" ≠ ""
      ∧ processImagePayload (some "zzz") = ImageOutcome.skippedUnrecognized
      ∧ processImagePayload (some "zzz") ≠ ImageOutcome.extractionError) :=
  ⟨⟨by decide, by decide,
    (C7_image_payload "data:image/png;base64,iVBORxyz").1 (by decide) (by decide)⟩,
   ⟨by decide,
    (C7_image_payload "zzz").2.2.1 (by decide) (by decide) (by decide) (by decide)⟩⟩

/-- C9: during extraction a text or title element is added as a section iff
no table already stored for the same page number contains the element
text as a substring of its data; when added, the section type is "title"
for Title elements and "text" otherwise, and the rest of the store is
unchanged. -/
theorem C9_text_dedup (store : DocumentStore) (isTitle : Bool) (txt : String)
    (page : Nat) (md : Metadata) :
    ((∃ t ∈ store.tables, t.page_num = page ∧ txt.toList <:+: t.data.toList) →
      processTextElement store isTitle txt page md = store)
    ∧ ((¬ ∃ t ∈ store.tables, t.page_num = page ∧ txt.toList <:+: t.data.toList) →
      (processTextElement store isTitle txt page md).sections
          = store.sections
            ++ [{ content := txt, page_num := page,
                  section_type := if isTitle then "title" else "text",
                  metadata := md }]
        ∧ (processTextElement store isTitle txt page md).images = store.images
        ∧ (processTextElement store isTitle txt page md).tables = store.tables
        ∧ (processTextElement store isTitle txt page md).current_document
            = store.current_document) := by
  have hiff : (store.tables.any (fun table =>
        table.page_num == page && strContains table.data txt)) = true
      ↔ ∃ t ∈ store.tables, t.page_num = page ∧ txt.toList <:+: t.data.toList := by
    rw [List.any_eq_true]
    constructor
    · rintro ⟨t, ht, hc⟩
      rw [Bool.and_eq_true] at hc
      exact ⟨t, ht, by simpa using hc.1, (strContains_iff _ _).mp hc.2⟩
    · rintro ⟨t, ht, h1, h2⟩
      refine ⟨t, ht, ?_⟩
      rw [Bool.and_eq_true]
      exact ⟨by simp [h1], (strContains_iff _ _).mpr h2⟩
  constructor
  · intro h
    unfold processTextElement
    rw [if_pos (hiff.mpr h)]
  · intro h
    unfold processTextElement
    rw [if_neg (fun hc => h (hiff.mp hc))]
    exact ⟨rfl, rfl, rfl, rfl⟩

/-- C9 witness: in the concrete store whose page-2 table data contains
"A B", a text element "A B" on page 2 is skipped, while a title element
"A B" on page 3 is appended with type "title". -/
theorem C9_witness :
    ((∃ t ∈ sampleStore.tables, t.page_num = 2 ∧ "A B".toList <:+: t.data.toList)
      ∧ processTextElement sampleStore false "A B" 2 [] = sampleStore)
    ∧ ((¬ ∃ t ∈ sampleStore.tables, t.page_num = 3 ∧ "A B".toList <:+: t.data.toList)
      ∧ ((processTextElement sampleStore true "A B" 3 []).sections
            = sampleStore.sections
              ++ [{ content := "A B", page_num := 3,
                    section_type := if true then "title" else "text",
                    metadata := [] }]
        ∧ (processTextElement sampleStore true "A B" 3 []).images = sampleStore.images
        ∧ (processTextElement sampleStore true "A B" 3 []).tables = sampleStore.tables
        ∧ (processTextElement sampleStore true "A B" 3 []).current_document
            = sampleStore.current_document)) := by
  have hpos : ∃ t ∈ sampleStore.tables,
      t.page_num = 2 ∧ "A B".toList <:+: t.data.toList :=
    ⟨sampleTable, by decide, rfl, (listInfix_iff _ _).mp (by decide)⟩
  have hneg : ¬ ∃ t ∈ sampleStore.tables,
      t.page_num = 3 ∧ "A B".toList <:+: t.data.toList := by
    rintro ⟨t, ht, hp, -⟩
    simp only [sampleStore, List.mem_singleton] at ht
    subst ht
    exact absurd hp (by decide)
  exact ⟨⟨hpos, (C9_text_dedup sampleStore false "A B" 2 []).1 hpos⟩,
         ⟨hneg, (C9_text_dedup sampleStore true "A B" 3 []).2 hneg⟩⟩

/-- C10: when the store holds at least one section but every selected
section is whitespace-only, the fallback is not returned: the response is
role assistant with empty content and empty media lists (the relevant
pages are empty, so no media can match even when the query carries an
intent keyword). -/
theorem C10_whitespace_sections_empty_answer (store : DocumentStore) (q : String)
    (hne : store.sections ≠ [])
    (hws : ∀ e ∈ store.get_context_for_query q 5, pyStrip e.content = "") :
    chatWithQuery store q
      = { role := "assistant", content := "", images := [], tables := [] }
    ∧ (chatWithQuery store q).content ≠ fallbackText := by
  have hctxne : store.get_context_for_query q 5 ≠ [] :=
    getContext_ne_nil store q 5 (by norm_num) hne
  have hE := isEmpty_false_of_ne_nil hctxne
  have hfil : (store.get_context_for_query q 5).filter
      (fun s => pyStrip s.content != "") = [] := by
    rw [List.filter_eq_nil_iff]
    intro a ha
    simp [hws a ha]
  have hb := buildBody_eq store.current_document (store.get_context_for_query q 5)
  rw [hfil] at hb
  simp only [List.map_nil] at hb
  have himg : store.images.filter
      (fun img => ([] : List Nat).contains img.page_num) = [] := by
    rw [List.filter_eq_nil_iff]
    intro a ha
    simp
  have htab : store.tables.filter
      (fun t => ([] : List Nat).contains t.page_num) = [] := by
    rw [List.filter_eq_nil_iff]
    intro a ha
    simp
  have hmain : chatWithQuery store q
      = { role := "assistant", content := "", images := [], tables := [] } := by
    simp [chatWithQuery, hE, hb, himg, htab, pyJoin]
  exact ⟨hmain, by rw [hmain]; decide⟩

/-- C10 witness: the theorem instantiated at a store holding one
whitespace-only section and a query that carries both intent keywords. -/
theorem C10_witness :
    blankStore.sections ≠ []
    ∧ (∀ e ∈ blankStore.get_context_for_query "show me the table" 5,
        pyStrip e.content = "")
    ∧ (chatWithQuery blankStore "show me the table"
        = { role := "assistant", content := "", images := [], tables := [] }
      ∧ (chatWithQuery blankStore "show me the table").content ≠ fallbackText) :=
  ⟨by decide, by decide,
   C10_whitespace_sections_empty_answer blankStore "show me the table"
     (by decide) (by decide)⟩

end Server
